import Mathlib

/-!
Verification development for the dose-tracker repository.

The repository computes the time-varying total concentration of repeatedly
dosed substances under first-order exponential decay, and samples the
resulting curve adaptively for plotting.  We embed the numeric core
shallowly: JavaScript numbers are modelled as real numbers, `Date` values
as their epoch-millisecond real value, and `Math.pow(0.5, x)` as the real
power `(0.5 : R) ^ x` (`Real.rpow`).  JavaScript `Set<number>` collections
are modelled as `Finset R` (deduplicated collections of numbers), and the
final `Array.from(set).sort((a, b) => a - b)` as `Finset.sort`.
-/

namespace DoseTracker

/-- Drug definition, from `src/types` (`Drug`): id, display name, half-life
in hours, display color. -/
structure Drug where
  id : String
  name : String
  halfLife : ℝ
  color : String

/-- Dose entry, from `src/types` (`DoseEntry`): id, owning drug id, initial
amount in mg, and administration instant.  The `Date` field
`administrationTime` is embedded as its epoch-millisecond value. -/
structure DoseEntry where
  id : String
  drugId : String
  initialDose : ℝ
  administrationTime : ℝ

/-- Time window, from `src/types` (`TimeRange`).  The source field `end` is
a Lean keyword, so it is embedded as `stop`; both fields are the
epoch-millisecond values of the `Date` objects. -/
structure TimeRange where
  start : ℝ
  stop : ℝ

/-- Grouping of one drug with its doses, from `src/types` (`PlottedDrug`). -/
structure PlottedDrug where
  drug : Drug
  doses : List DoseEntry

/-- Embeds `calculateSingleDoseConcentration` from
`src/utils/doseCalculations.ts`:

    if (timeElapsedMs < 0) return 0;
    const halfLifeMs = halfLifeHours * 60 * 60 * 1000;
    const halfLives = timeElapsedMs / halfLifeMs;
    return initialDose * Math.pow(0.5, halfLives);
-/
noncomputable def calculateSingleDoseConcentration
    (initialDose halfLifeHours timeElapsedMs : ℝ) : ℝ :=
  if timeElapsedMs < 0 then 0
  else
    initialDose * (0.5 : ℝ) ^ (timeElapsedMs / (halfLifeHours * 60 * 60 * 1000))

/-- Embeds `calculateTotalConcentration` from
`src/utils/doseCalculations.ts`: a running accumulator over the dose list,
adding the single-dose concentration whenever `timeMs - administrationTime`
is non-negative. -/
noncomputable def calculateTotalConcentration
    (doses : List DoseEntry) (drug : Drug) (timeMs : ℝ) : ℝ :=
  doses.foldl
    (fun totalConcentration dose =>
      if 0 ≤ timeMs - dose.administrationTime then
        totalConcentration +
          calculateSingleDoseConcentration dose.initialDose drug.halfLife
            (timeMs - dose.administrationTime)
      else totalConcentration)
    0

/-- The contribution of one dose at one instant: the single-dose
concentration evaluated at the elapsed time since administration.  Helper
used to state the superposition sum. -/
noncomputable def doseContribution (drug : Drug) (timeMs : ℝ) (dose : DoseEntry) : ℝ :=
  calculateSingleDoseConcentration dose.initialDose drug.halfLife
    (timeMs - dose.administrationTime)

/-- The sample-count formula from `calculateDecayPoints` in
`src/components/DoseHistory.tsx`:

    const basePoints = Math.max(200, totalDuration / halfLifeMs * 10);
    const maxPoints = 2000;
    const numPoints = Math.min(maxPoints, Math.max(basePoints, 100));
-/
noncomputable def decayNumPoints (drug : Drug) (timeRange : TimeRange) : ℝ :=
  min 2000
    (max
      (max 200
        ((timeRange.stop - timeRange.start) /
            (drug.halfLife * 60 * 60 * 1000) * 10))
      100)

/-- One iteration of the dose-time loop of `calculateDecayPoints`: for a
dose whose administration instant lies inside the window, add the instant
itself and one guard point on each side, offset by a tenth of the
half-life and clamped to the window; otherwise leave the set unchanged. -/
noncomputable def doseSampleStep (drug : Drug) (timeRange : TimeRange)
    (s : Finset ℝ) (dose : DoseEntry) : Finset ℝ :=
  if timeRange.start ≤ dose.administrationTime ∧
      dose.administrationTime ≤ timeRange.stop then
    insert
      (min timeRange.stop
        (dose.administrationTime + drug.halfLife * 60 * 60 * 1000 * 0.1))
      (insert
        (max timeRange.start
          (dose.administrationTime - drug.halfLife * 60 * 60 * 1000 * 0.1))
        (insert dose.administrationTime s))
  else s

/-- The forced sample instants of `calculateDecayPoints`: the JS `Set`
after the `doses.forEach` loop. -/
noncomputable def doseSampleTimes (drug : Drug) (doses : List DoseEntry)
    (timeRange : TimeRange) : Finset ℝ :=
  doses.foldl (doseSampleStep drug timeRange) ∅

/-- The regular evenly spaced sample instants of `calculateDecayPoints`:

    const step = totalDuration / numPoints;
    for (let i = 0; i <= numPoints; i++) sampleTimes.add(startTime + i * step);

The integer loop counter runs from 0 up to the floor of the real-valued
`numPoints`. -/
noncomputable def regularSampleTimes (drug : Drug) (timeRange : TimeRange) :
    Finset ℝ :=
  (Finset.range (⌊decayNumPoints drug timeRange⌋₊ + 1)).image fun i : ℕ =>
    timeRange.start +
      (i : ℝ) *
        ((timeRange.stop - timeRange.start) / decayNumPoints drug timeRange)

/-- All sample instants collected by `calculateDecayPoints`: the JS
`Set<number>` after both insertion phases. -/
noncomputable def sampleTimes (drug : Drug) (doses : List DoseEntry)
    (timeRange : TimeRange) : Finset ℝ :=
  doseSampleTimes drug doses timeRange ∪ regularSampleTimes drug timeRange

/-- Embeds `calculateDecayPoints` from `src/components/DoseHistory.tsx`:
returns the empty list for an empty dose list, otherwise sorts the
collected sample instants ascending and evaluates the aggregator at each
one, producing the plot-ready `(instant, concentration)` series. -/
noncomputable def calculateDecayPoints (drug : Drug) (doses : List DoseEntry)
    (timeRange : TimeRange) : List (ℝ × ℝ) :=
  if doses.length = 0 then []
  else
    ((sampleTimes drug doses timeRange).sort (· ≤ ·)).map fun time =>
      (time, calculateTotalConcentration doses drug time)

/-- Embeds `plottedDrugs` (`src/App.tsx` and
`src/components/DoseHistory.tsx`): group the dose entries by drug and keep
only the drugs with at least one dose.  The source builds a JS `Map` keyed
on `drug.id` and appends each dose entry whose `drugId` is present; since
Substance ids are unique (data model), that grouping assigns to each drug
exactly the dose entries whose `drugId` equals its id, in input order,
which is the per-drug filter below. -/
def plottedDrugs (drugs : List Drug) (doseEntries : List DoseEntry) :
    List PlottedDrug :=
  (drugs.map fun drug =>
      { drug := drug
        doses := doseEntries.filter fun dose => dose.drugId = drug.id
        : PlottedDrug }).filter
    fun plotted => 0 < plotted.doses.length

end DoseTracker

namespace DoseTracker

theorem calculateSingleDoseConcentration_of_neg {D H t : ℝ} (h : t < 0) :
    calculateSingleDoseConcentration D H t = 0 := by
  simp [calculateSingleDoseConcentration, h]

theorem calculateSingleDoseConcentration_of_nonneg {D H t : ℝ} (h : 0 ≤ t) :
    calculateSingleDoseConcentration D H t =
      D * (0.5 : ℝ) ^ (t / (H * 60 * 60 * 1000)) := by
  simp [calculateSingleDoseConcentration, not_lt.2 h]

theorem calculateSingleDoseConcentration_zero_elapsed (D H : ℝ) :
    calculateSingleDoseConcentration D H 0 = D := by
  rw [calculateSingleDoseConcentration_of_nonneg le_rfl]
  simp

theorem doseContribution_admin_eq {drug : Drug} {t : ℝ} {d : DoseEntry}
    (h : d.administrationTime = t) :
    doseContribution drug t d = d.initialDose := by
  rw [doseContribution, h, sub_self]
  exact calculateSingleDoseConcentration_zero_elapsed _ _

theorem doseContribution_admin_gt {drug : Drug} {t : ℝ} {d : DoseEntry}
    (h : t < d.administrationTime) :
    doseContribution drug t d = 0 :=
  calculateSingleDoseConcentration_of_neg (by linarith)

theorem foldl_concentration_eq (drug : Drug) (t : ℝ) :
    ∀ (doses : List DoseEntry) (a : ℝ),
      doses.foldl
        (fun totalConcentration dose =>
          if 0 ≤ t - dose.administrationTime then
            totalConcentration +
              calculateSingleDoseConcentration dose.initialDose drug.halfLife
                (t - dose.administrationTime)
          else totalConcentration)
        a = a + (doses.map (doseContribution drug t)).sum
  | [], a => by simp
  | dose :: rest, a => by
    rw [List.foldl_cons, foldl_concentration_eq drug t rest, List.map_cons,
      List.sum_cons]
    by_cases h : 0 ≤ t - dose.administrationTime
    · rw [if_pos h]
      rw [doseContribution]
      ring
    · rw [if_neg h, doseContribution,
        calculateSingleDoseConcentration_of_neg (lt_of_not_le h)]
      ring

/-- The superposition aggregator is the plain sum of per-dose
contributions: the non-negativity guard in the source loop is redundant
because the single-dose function already clamps negative elapsed times to
zero. -/
theorem calculateTotalConcentration_eq_sum
    (doses : List DoseEntry) (drug : Drug) (t : ℝ) :
    calculateTotalConcentration doses drug t =
      (doses.map (doseContribution drug t)).sum := by
  rw [calculateTotalConcentration, foldl_concentration_eq, zero_add]

theorem calculateTotalConcentration_nil (drug : Drug) (t : ℝ) :
    calculateTotalConcentration [] drug t = 0 := rfl

theorem calculateTotalConcentration_append
    (l₁ l₂ : List DoseEntry) (drug : Drug) (t : ℝ) :
    calculateTotalConcentration (l₁ ++ l₂) drug t =
      calculateTotalConcentration l₁ drug t +
        calculateTotalConcentration l₂ drug t := by
  simp [calculateTotalConcentration_eq_sum]

theorem calculateTotalConcentration_singleton_at_admin
    (d : DoseEntry) (drug : Drug) :
    calculateTotalConcentration [d] drug d.administrationTime =
      d.initialDose := by
  rw [calculateTotalConcentration_eq_sum, List.map_singleton,
    List.sum_singleton, doseContribution_admin_eq rfl]

/-- C1: with a non-negative initial amount and positive half-life, the
single-dose decay function at elapsed time exactly zero returns exactly the
initial amount, and consequently the aggregator over a single dose
administered exactly at the queried instant returns exactly that amount
(in particular 200 at a 200 mg dose queried at its own instant). -/
theorem c1_zero_elapsed_exact (D H : ℝ) (hD : 0 ≤ D) (hH : 0 < H) :
    calculateSingleDoseConcentration D H 0 = D ∧
      ∀ (d : DoseEntry) (drug : Drug), d.initialDose = D → drug.halfLife = H →
        calculateTotalConcentration [d] drug d.administrationTime = D := by
  refine ⟨calculateSingleDoseConcentration_zero_elapsed D H, ?_⟩
  intro d drug hd _
  rw [calculateTotalConcentration_singleton_at_admin, hd]

theorem c1_zero_elapsed_exact_witness :
    calculateTotalConcentration
        [{ id := "dose-1", drugId := "levothyroxine-id", initialDose := 200,
           administrationTime := 1754818200000 }]
        { id := "levothyroxine-id", name := "levothyroxine", halfLife := 24,
          color := "#000" }
        1754818200000 = 200 :=
  (c1_zero_elapsed_exact 200 24 (by norm_num) (by norm_num)).2
    { id := "dose-1", drugId := "levothyroxine-id", initialDose := 200,
      administrationTime := 1754818200000 }
    { id := "levothyroxine-id", name := "levothyroxine", halfLife := 24,
      color := "#000" } rfl rfl

/-- C2: with non-negative initial amount and positive half-life, the decay
function returns exactly 0 for negative elapsed time, otherwise returns
initialAmount times 0.5 to the power elapsedMs divided by the half-life in
milliseconds; in particular after n whole half-lives it returns exactly the
initial amount times 0.5 to the n-th power. -/
theorem c2_decay_formula (D H : ℝ) (hD : 0 ≤ D) (hH : 0 < H) :
    (∀ t : ℝ, t < 0 → calculateSingleDoseConcentration D H t = 0) ∧
      (∀ t : ℝ, 0 ≤ t →
        calculateSingleDoseConcentration D H t =
          D * (0.5 : ℝ) ^ (t / (H * 3600000))) ∧
      ∀ n : ℕ,
        calculateSingleDoseConcentration D H (n * (H * 3600000)) =
          D * (0.5 : ℝ) ^ n := by
  refine ⟨fun t ht => calculateSingleDoseConcentration_of_neg ht, ?_, ?_⟩
  · intro t ht
    rw [calculateSingleDoseConcentration_of_nonneg ht,
      show H * 60 * 60 * 1000 = H * 3600000 by ring]
  · intro n
    have helapsed : (0 : ℝ) ≤ n * (H * 3600000) := by positivity
    rw [calculateSingleDoseConcentration_of_nonneg helapsed]
    have hexp : (n : ℝ) * (H * 3600000) / (H * 60 * 60 * 1000) = (n : ℝ) := by
      rw [show H * 60 * 60 * 1000 = H * 3600000 by ring]
      field_simp
    rw [hexp, Real.rpow_natCast]

theorem c2_decay_formula_witness :
    calculateSingleDoseConcentration 100 24 (2 * (24 * 3600000)) =
      100 * (0.5 : ℝ) ^ (2 : ℕ) := by
  have h := (c2_decay_formula 100 24 (by norm_num) (by norm_num)).2.2 2
  rw [show ((2 : ℕ) : ℝ) = (2 : ℝ) by norm_num] at h
  exact h

/-- C3: the aggregator equals the sum over every dose of the single-dose
decay at the elapsed time; a dose administered exactly at the queried
instant contributes its full initial amount, a dose administered after the
instant contributes exactly 0, and the empty dose list yields exactly 0. -/
theorem c3_superposition_sum (doses : List DoseEntry) (drug : Drug) (t : ℝ)
    (hH : 0 < drug.halfLife) :
    calculateTotalConcentration doses drug t =
        (doses.map fun d =>
          calculateSingleDoseConcentration d.initialDose drug.halfLife
            (t - d.administrationTime)).sum ∧
      (∀ d : DoseEntry, d.administrationTime = t →
        calculateSingleDoseConcentration d.initialDose drug.halfLife
            (t - d.administrationTime) = d.initialDose) ∧
      (∀ d : DoseEntry, t < d.administrationTime →
        calculateSingleDoseConcentration d.initialDose drug.halfLife
            (t - d.administrationTime) = 0) ∧
      calculateTotalConcentration [] drug t = 0 := by
  refine ⟨calculateTotalConcentration_eq_sum doses drug t, ?_, ?_, rfl⟩
  · intro d hd
    exact doseContribution_admin_eq hd
  · intro d hd
    exact doseContribution_admin_gt hd

/-- C9: the aggregator is a pure function of its arguments: identical
calls give identical results, the result over a concatenation splits as
the sum of the results over the parts (so deleting doses removes exactly
their contribution, with nothing stale left behind), and with a single
remaining 200 mg dose administered exactly at the queried instant the
result is exactly 200. -/
theorem c9_stateless_pure :
    (∀ (doses : List DoseEntry) (drug : Drug) (t : ℝ),
        calculateTotalConcentration doses drug t =
          calculateTotalConcentration doses drug t) ∧
      (∀ (removed kept : List DoseEntry) (drug : Drug) (t : ℝ),
        calculateTotalConcentration (removed ++ kept) drug t =
          calculateTotalConcentration removed drug t +
            calculateTotalConcentration kept drug t) ∧
      ∀ (t₀ : ℝ) (d : DoseEntry) (drug : Drug),
        drug.halfLife = 24 → d.initialDose = 200 →
          d.administrationTime = t₀ + 24 * 3600000 →
          calculateTotalConcentration [d] drug (t₀ + 24 * 3600000) = 200 := by
  refine ⟨fun doses drug t => rfl, calculateTotalConcentration_append, ?_⟩
  intro t₀ d drug _ hdose hadmin
  rw [← hadmin, calculateTotalConcentration_singleton_at_admin, hdose]

theorem c9_stateless_pure_witness :
    calculateTotalConcentration
        [{ id := "dose-3", drugId := "levothyroxine-id", initialDose := 200,
           administrationTime := 86400000 }]
        { id := "levothyroxine-id", name := "levothyroxine", halfLife := 24,
          color := "#000" }
        (0 + 24 * 3600000) = 200 :=
  c9_stateless_pure.2.2 0
    { id := "dose-3", drugId := "levothyroxine-id", initialDose := 200,
      administrationTime := 86400000 }
    { id := "levothyroxine-id", name := "levothyroxine", halfLife := 24,
      color := "#000" } rfl rfl (by norm_num)

/-- C10 failing input: with the precondition violated (half-life minus 24
hours), the decay function surfaces no error at all: it silently returns
the garbage value 200 for a 100 mg dose after 24 hours, i.e. the dose has
doubled instead of decaying and no computation error is raised.  The
source function is total and has no error path. -/
theorem c10_negative_half_life_silent_garbage :
    calculateSingleDoseConcentration 100 (-24) (24 * 3600000) = 200 := by
  rw [calculateSingleDoseConcentration_of_nonneg (by norm_num),
    show (24 * 3600000 : ℝ) / (-24 * 60 * 60 * 1000) = (-1 : ℝ) by norm_num,
    Real.rpow_neg (by norm_num), Real.rpow_one]
  norm_num

theorem c3_superposition_sum_witness :
    calculateTotalConcentration []
        { id := "1", name := "Test", halfLife := 24, color := "#000" }
        1700000000000 = 0 :=
  (c3_superposition_sum []
    { id := "1", name := "Test", halfLife := 24, color := "#000" }
    1700000000000 (by norm_num)).2.2.2

theorem doseContribution_antitone {drug : Drug} (hH : 0 < drug.halfLife)
    {d : DoseEntry} (hd : 0 ≤ d.initialDose) {s t : ℝ}
    (hadmin : d.administrationTime ≤ s) (hst : s ≤ t) :
    doseContribution drug t d ≤ doseContribution drug s d := by
  have hms : (0 : ℝ) < drug.halfLife * 60 * 60 * 1000 := by positivity
  rw [doseContribution, doseContribution,
    calculateSingleDoseConcentration_of_nonneg (by linarith),
    calculateSingleDoseConcentration_of_nonneg (by linarith)]
  refine mul_le_mul_of_nonneg_left ?_ hd
  refine Real.rpow_le_rpow_of_exponent_ge (by norm_num) (by norm_num) ?_
  exact (div_le_div_iff_of_pos_right hms).2 (by linarith)

theorem doseContribution_strict_anti {drug : Drug} (hH : 0 < drug.halfLife)
    {d : DoseEntry} (hd : 0 < d.initialDose) {s t : ℝ}
    (hadmin : d.administrationTime ≤ s) (hst : s < t) :
    doseContribution drug t d < doseContribution drug s d := by
  have hms : (0 : ℝ) < drug.halfLife * 60 * 60 * 1000 := by positivity
  rw [doseContribution, doseContribution,
    calculateSingleDoseConcentration_of_nonneg (by linarith),
    calculateSingleDoseConcentration_of_nonneg (by linarith)]
  refine mul_lt_mul_of_pos_left ?_ hd
  refine Real.rpow_lt_rpow_of_exponent_gt (by norm_num) (by norm_num) ?_
  exact (div_lt_div_iff_of_pos_right hms).2 (by linarith)

theorem map_sum_le_map_sum {α : Type} (f g : α → ℝ) :
    ∀ l : List α, (∀ x ∈ l, f x ≤ g x) → (l.map f).sum ≤ (l.map g).sum
  | [], _ => le_rfl
  | x :: l, h => by
    rw [List.map_cons, List.map_cons, List.sum_cons, List.sum_cons]
    exact add_le_add (h x (List.mem_cons_self x l))
      (map_sum_le_map_sum f g l fun y hy => h y (List.mem_cons_of_mem x hy))

theorem map_sum_lt_map_sum {α : Type} (f g : α → ℝ) :
    ∀ l : List α, (∀ x ∈ l, f x ≤ g x) →
      ∀ d ∈ l, f d < g d → (l.map f).sum < (l.map g).sum
  | [], _, d, hd, _ => absurd hd (List.not_mem_nil d)
  | x :: l, h, d, hd, hlt => by
    rw [List.map_cons, List.map_cons, List.sum_cons, List.sum_cons]
    rcases List.mem_cons.1 hd with hx | hmem
    · subst hx
      exact add_lt_add_of_lt_of_le hlt
        (map_sum_le_map_sum f g l fun y hy => h y (List.mem_cons_of_mem d hy))
    · exact add_lt_add_of_le_of_lt (h x (List.mem_cons_self x l))
        (map_sum_lt_map_sum f g l
          (fun y hy => h y (List.mem_cons_of_mem x hy)) d hmem hlt)

theorem totalConcentration_antitone_between_doses
    (doses : List DoseEntry) (drug : Drug) (hH : 0 < drug.halfLife)
    (hamounts : ∀ d ∈ doses, 0 ≤ d.initialDose) {s t : ℝ} (hst : s < t)
    (hno : ∀ d ∈ doses, ¬(s < d.administrationTime ∧ d.administrationTime ≤ t)) :
    calculateTotalConcentration doses drug t ≤
      calculateTotalConcentration doses drug s := by
  rw [calculateTotalConcentration_eq_sum, calculateTotalConcentration_eq_sum]
  refine map_sum_le_map_sum _ _ doses fun d hd => ?_
  rcases le_or_lt d.administrationTime s with hle | hgt
  · exact doseContribution_antitone hH (hamounts d hd) hle hst.le
  · have ht : t < d.administrationTime := by
      rcases lt_or_le t d.administrationTime with h | h
      · exact h
      · exact absurd ⟨hgt, h⟩ (hno d hd)
    rw [doseContribution_admin_gt ht,
      doseContribution_admin_gt (lt_trans hst ht)]

theorem totalConcentration_strict_anti_between_doses
    (doses : List DoseEntry) (drug : Drug) (hH : 0 < drug.halfLife)
    (hamounts : ∀ d ∈ doses, 0 ≤ d.initialDose) {s t : ℝ} (hst : s < t)
    (hno : ∀ d ∈ doses, ¬(s < d.administrationTime ∧ d.administrationTime ≤ t))
    (hsome : ∃ d ∈ doses, 0 < d.initialDose ∧ d.administrationTime ≤ s) :
    calculateTotalConcentration doses drug t <
      calculateTotalConcentration doses drug s := by
  obtain ⟨d₀, hd₀, hpos, hadmin⟩ := hsome
  rw [calculateTotalConcentration_eq_sum, calculateTotalConcentration_eq_sum]
  refine map_sum_lt_map_sum _ _ doses (fun d hd => ?_) d₀ hd₀
    (doseContribution_strict_anti hH hpos hadmin hst)
  rcases le_or_lt d.administrationTime s with hle | hgt
  · exact doseContribution_antitone hH (hamounts d hd) hle hst.le
  · have ht : t < d.administrationTime := by
      rcases lt_or_le t d.administrationTime with h | h
      · exact h
      · exact absurd ⟨hgt, h⟩ (hno d hd)
    rw [doseContribution_admin_gt ht,
      doseContribution_admin_gt (lt_trans hst ht)]

theorem tendsto_doseContribution_of_admin_lt {drug : Drug} {d : DoseEntry}
    {t₀ : ℝ} (h : d.administrationTime < t₀) :
    Filter.Tendsto (fun t => doseContribution drug t d)
      (nhdsWithin t₀ (Set.Iio t₀)) (nhds (doseContribution drug t₀ d)) := by
  have heq : ∀ t : ℝ, d.administrationTime < t →
      doseContribution drug t d =
        d.initialDose *
          Real.exp (Real.log 0.5 *
            ((t - d.administrationTime) /
              (drug.halfLife * 60 * 60 * 1000))) := by
    intro t ht
    rw [doseContribution,
      calculateSingleDoseConcentration_of_nonneg (by linarith),
      Real.rpow_def_of_pos (by norm_num)]
  have hcont : Continuous fun t : ℝ =>
      d.initialDose *
        Real.exp (Real.log 0.5 *
          ((t - d.administrationTime) /
            (drug.halfLife * 60 * 60 * 1000))) :=
    continuous_const.mul (Real.continuous_exp.comp
      (continuous_const.mul
        ((continuous_id.sub continuous_const).div_const _)))
  rw [heq t₀ h]
  refine Filter.Tendsto.congr' ?_
    ((hcont.tendsto t₀).mono_left nhdsWithin_le_nhds)
  filter_upwards [(eventually_gt_nhds h).filter_mono nhdsWithin_le_nhds]
    with t ht
  exact (heq t ht).symm

theorem tendsto_doseContribution_of_admin_ge {drug : Drug} {d : DoseEntry}
    {t₀ : ℝ} (h : t₀ ≤ d.administrationTime) :
    Filter.Tendsto (fun t => doseContribution drug t d)
      (nhdsWithin t₀ (Set.Iio t₀)) (nhds 0) := by
  refine Filter.Tendsto.congr' ?_ tendsto_const_nhds
  filter_upwards [self_mem_nhdsWithin] with t ht
  exact (doseContribution_admin_gt (lt_of_lt_of_le ht h)).symm

theorem tendsto_totalConcentration_left
    (doses : List DoseEntry) (drug : Drug) (t₀ : ℝ) :
    Filter.Tendsto (fun t => calculateTotalConcentration doses drug t)
      (nhdsWithin t₀ (Set.Iio t₀))
      (nhds ((doses.map fun d =>
        if d.administrationTime < t₀ then doseContribution drug t₀ d
        else 0).sum)) := by
  refine Filter.Tendsto.congr
    (fun t => (calculateTotalConcentration_eq_sum doses drug t).symm) ?_
  refine tendsto_list_sum doses fun d _ => ?_
  rcases lt_or_le d.administrationTime t₀ with hlt | hge
  · rw [if_pos hlt]
    exact tendsto_doseContribution_of_admin_lt hlt
  · rw [if_neg (not_lt.2 hge)]
    exact tendsto_doseContribution_of_admin_ge hge

theorem map_leftLimit_sum (drug : Drug) (t₀ : ℝ) :
    ∀ doses : List DoseEntry,
      (doses.map fun d =>
          if d.administrationTime < t₀ then doseContribution drug t₀ d
          else 0).sum =
        (doses.map (doseContribution drug t₀)).sum -
          ((doses.filter fun d => d.administrationTime = t₀).map
            (fun d => d.initialDose)).sum
  | [] => by simp
  | d :: l => by
    rw [List.map_cons, List.sum_cons, List.map_cons, List.sum_cons,
      List.filter_cons, map_leftLimit_sum drug t₀ l]
    rcases lt_trichotomy d.administrationTime t₀ with hlt | heq | hgt
    · rw [if_pos hlt, if_neg (by simp [ne_of_lt hlt])]
      ring
    · rw [if_neg (not_lt.2 heq.ge), if_pos (by simp [heq]),
        List.map_cons, List.sum_cons, doseContribution_admin_eq heq]
      ring
    · rw [if_neg (not_lt.2 hgt.le), if_neg (by simp [ne_of_gt hgt]),
        doseContribution_admin_gt hgt]
      ring

/-- C4: for a fixed dose set with non-negative amounts and positive
half-life, the total concentration is non-increasing across any pair of
instants with no dose administered in between, strictly decreasing when
some dose with positive amount was administered at or before the earlier
instant, and at an instant carrying exactly one dose the value exceeds the
left-hand limit (the value just before that instant) by exactly that dose
amount. -/
theorem c4_piecewise_monotone_and_jump (doses : List DoseEntry) (drug : Drug)
    (hH : 0 < drug.halfLife) (hamounts : ∀ d ∈ doses, 0 ≤ d.initialDose) :
    (∀ s t : ℝ, s < t →
        (∀ d ∈ doses,
          ¬(s < d.administrationTime ∧ d.administrationTime ≤ t)) →
        calculateTotalConcentration doses drug t ≤
          calculateTotalConcentration doses drug s) ∧
      (∀ s t : ℝ, s < t →
        (∀ d ∈ doses,
          ¬(s < d.administrationTime ∧ d.administrationTime ≤ t)) →
        (∃ d ∈ doses, 0 < d.initialDose ∧ d.administrationTime ≤ s) →
        calculateTotalConcentration doses drug t <
          calculateTotalConcentration doses drug s) ∧
      ∀ (t₀ : ℝ) (d : DoseEntry),
        (doses.filter fun d₀ => d₀.administrationTime = t₀) = [d] →
        Filter.Tendsto (calculateTotalConcentration doses drug)
          (nhdsWithin t₀ (Set.Iio t₀))
          (nhds (calculateTotalConcentration doses drug t₀ -
            d.initialDose)) := by
  refine ⟨fun s t hst hno =>
    totalConcentration_antitone_between_doses doses drug hH hamounts hst hno,
    fun s t hst hno hsome =>
      totalConcentration_strict_anti_between_doses doses drug hH hamounts hst
        hno hsome, ?_⟩
  intro t₀ d hfilter
  have h := tendsto_totalConcentration_left doses drug t₀
  rw [map_leftLimit_sum, hfilter, List.map_singleton, List.sum_singleton,
    ← calculateTotalConcentration_eq_sum] at h
  exact h

theorem c4_piecewise_monotone_and_jump_witness :
    calculateTotalConcentration
        [{ id := "1", drugId := "1", initialDose := 100,
           administrationTime := 0 }]
        { id := "1", name := "Test", halfLife := 24, color := "#000" } 2 ≤
      calculateTotalConcentration
        [{ id := "1", drugId := "1", initialDose := 100,
           administrationTime := 0 }]
        { id := "1", name := "Test", halfLife := 24, color := "#000" } 1 :=
  (c4_piecewise_monotone_and_jump
      [{ id := "1", drugId := "1", initialDose := 100,
         administrationTime := 0 }]
      { id := "1", name := "Test", halfLife := 24, color := "#000" }
      (by norm_num)
      (by intro d hd; rw [List.mem_singleton] at hd; subst hd; norm_num)).1
    1 2 (by norm_num)
    (by intro d hd; rw [List.mem_singleton] at hd; subst hd; norm_num)

theorem subset_doseSampleStep (drug : Drug) (timeRange : TimeRange)
    (s : Finset ℝ) (dose : DoseEntry) :
    s ⊆ doseSampleStep drug timeRange s dose := by
  rw [doseSampleStep]
  split
  · exact (Finset.subset_insert _ _).trans
      ((Finset.subset_insert _ _).trans (Finset.subset_insert _ _))
  · exact Finset.Subset.refl s

theorem subset_foldl_doseSampleStep (drug : Drug) (timeRange : TimeRange) :
    ∀ (l : List DoseEntry) (s : Finset ℝ),
      s ⊆ l.foldl (doseSampleStep drug timeRange) s
  | [], s => Finset.Subset.refl s
  | d :: l, s => by
    rw [List.foldl_cons]
    exact (subset_doseSampleStep drug timeRange s d).trans
      (subset_foldl_doseSampleStep drug timeRange l _)

theorem mem_foldl_doseSampleStep (drug : Drug) (timeRange : TimeRange) :
    ∀ (l : List DoseEntry) (s : Finset ℝ) (d : DoseEntry), d ∈ l →
      timeRange.start ≤ d.administrationTime →
      d.administrationTime ≤ timeRange.stop →
      d.administrationTime ∈ l.foldl (doseSampleStep drug timeRange) s ∧
        max timeRange.start
            (d.administrationTime - drug.halfLife * 60 * 60 * 1000 * 0.1) ∈
          l.foldl (doseSampleStep drug timeRange) s ∧
        min timeRange.stop
            (d.administrationTime + drug.halfLife * 60 * 60 * 1000 * 0.1) ∈
          l.foldl (doseSampleStep drug timeRange) s
  | [], _, d, hd, _, _ => absurd hd (List.not_mem_nil d)
  | x :: l, s, d, hd, h1, h2 => by
    rw [List.foldl_cons]
    rcases List.mem_cons.1 hd with hx | hmem
    · subst hx
      have hstep :
          d.administrationTime ∈ doseSampleStep drug timeRange s d ∧
            max timeRange.start
                (d.administrationTime -
                  drug.halfLife * 60 * 60 * 1000 * 0.1) ∈
              doseSampleStep drug timeRange s d ∧
            min timeRange.stop
                (d.administrationTime +
                  drug.halfLife * 60 * 60 * 1000 * 0.1) ∈
              doseSampleStep drug timeRange s d := by
        rw [doseSampleStep, if_pos ⟨h1, h2⟩]
        exact ⟨Finset.mem_insert_of_mem
            (Finset.mem_insert_of_mem (Finset.mem_insert_self _ _)),
          Finset.mem_insert_of_mem (Finset.mem_insert_self _ _),
          Finset.mem_insert_self _ _⟩
      have hsub := subset_foldl_doseSampleStep drug timeRange l
        (doseSampleStep drug timeRange s d)
      exact ⟨hsub hstep.1, hsub hstep.2.1, hsub hstep.2.2⟩
    · exact mem_foldl_doseSampleStep drug timeRange l _ d hmem h1 h2

theorem decayPoints_map_fst (drug : Drug) (doses : List DoseEntry)
    (timeRange : TimeRange) (h : doses.length ≠ 0) :
    (calculateDecayPoints drug doses timeRange).map Prod.fst =
      (sampleTimes drug doses timeRange).sort (· ≤ ·) := by
  rw [calculateDecayPoints, if_neg h, List.map_map]
  have hcomp :
      (Prod.fst ∘ fun time : ℝ =>
        (time, calculateTotalConcentration doses drug time)) = id := rfl
  rw [hcomp, List.map_id]

/-- C5: for a non-empty dose list and a window with start at or before
stop, the sampler output contains, for each dose administered inside the
window, a sample at exactly the administration instant plus the guard
points immediately before and after it, offset by a tenth of the half-life
and clamped to the window. -/
theorem c5_forced_dose_instants (drug : Drug) (doses : List DoseEntry)
    (timeRange : TimeRange) (hne : doses ≠ [])
    (hwin : timeRange.start ≤ timeRange.stop) (d : DoseEntry)
    (hd : d ∈ doses) (h1 : timeRange.start ≤ d.administrationTime)
    (h2 : d.administrationTime ≤ timeRange.stop) :
    d.administrationTime ∈
        (calculateDecayPoints drug doses timeRange).map Prod.fst ∧
      max timeRange.start
          (d.administrationTime - drug.halfLife * 60 * 60 * 1000 * 0.1) ∈
        (calculateDecayPoints drug doses timeRange).map Prod.fst ∧
      min timeRange.stop
          (d.administrationTime + drug.halfLife * 60 * 60 * 1000 * 0.1) ∈
        (calculateDecayPoints drug doses timeRange).map Prod.fst := by
  have hlen : doses.length ≠ 0 := by
    simpa [List.length_eq_zero] using hne
  rw [decayPoints_map_fst drug doses timeRange hlen]
  have hmem := mem_foldl_doseSampleStep drug timeRange doses ∅ d hd h1 h2
  refine ⟨?_, ?_, ?_⟩
  · rw [Finset.mem_sort]
    exact Finset.mem_union_left _ hmem.1
  · rw [Finset.mem_sort]
    exact Finset.mem_union_left _ hmem.2.1
  · rw [Finset.mem_sort]
    exact Finset.mem_union_left _ hmem.2.2

theorem c5_forced_dose_instants_witness :
    (0 : ℝ) ∈
        (calculateDecayPoints
            { id := "1", name := "Test", halfLife := 24, color := "#000" }
            [{ id := "1", drugId := "1", initialDose := 100,
               administrationTime := 0 }]
            { start := 0, stop := 86400000 }).map Prod.fst ∧
      max (0 : ℝ) (0 - 24 * 60 * 60 * 1000 * 0.1) ∈
        (calculateDecayPoints
            { id := "1", name := "Test", halfLife := 24, color := "#000" }
            [{ id := "1", drugId := "1", initialDose := 100,
               administrationTime := 0 }]
            { start := 0, stop := 86400000 }).map Prod.fst ∧
      min (86400000 : ℝ) (0 + 24 * 60 * 60 * 1000 * 0.1) ∈
        (calculateDecayPoints
            { id := "1", name := "Test", halfLife := 24, color := "#000" }
            [{ id := "1", drugId := "1", initialDose := 100,
               administrationTime := 0 }]
            { start := 0, stop := 86400000 }).map Prod.fst :=
  c5_forced_dose_instants
    { id := "1", name := "Test", halfLife := 24, color := "#000" }
    [{ id := "1", drugId := "1", initialDose := 100,
       administrationTime := 0 }]
    { start := 0, stop := 86400000 } (by simp) (by norm_num)
    { id := "1", drugId := "1", initialDose := 100,
      administrationTime := 0 }
    (List.mem_singleton.2 rfl) (by norm_num) (by norm_num)

theorem decayNumPoints_le (drug : Drug) (timeRange : TimeRange) :
    decayNumPoints drug timeRange ≤ 2000 :=
  min_le_left _ _

theorem le_decayNumPoints (drug : Drug) (timeRange : TimeRange) :
    100 ≤ decayNumPoints drug timeRange :=
  le_min (by norm_num) (le_max_right _ _)

theorem decayNumPoints_pos (drug : Drug) (timeRange : TimeRange) :
    0 < decayNumPoints drug timeRange :=
  lt_of_lt_of_le (by norm_num) (le_decayNumPoints drug timeRange)

theorem mem_regularSampleTimes_bounds (drug : Drug) (timeRange : TimeRange)
    (hwin : timeRange.start ≤ timeRange.stop) :
    ∀ x ∈ regularSampleTimes drug timeRange,
      timeRange.start ≤ x ∧ x ≤ timeRange.stop := by
  intro x hx
  rw [regularSampleTimes, Finset.mem_image] at hx
  obtain ⟨i, hi, rfl⟩ := hx
  have hN := decayNumPoints_pos drug timeRange
  have hstep :
      0 ≤ (timeRange.stop - timeRange.start) / decayNumPoints drug timeRange :=
    div_nonneg (by linarith) hN.le
  have hmul : 0 ≤ (i : ℝ) *
      ((timeRange.stop - timeRange.start) / decayNumPoints drug timeRange) :=
    mul_nonneg (Nat.cast_nonneg i) hstep
  refine ⟨by linarith, ?_⟩
  have hiN : (i : ℝ) ≤ decayNumPoints drug timeRange := by
    rw [Finset.mem_range, Nat.lt_succ_iff] at hi
    exact (Nat.le_floor_iff hN.le).1 hi
  have hle : (i : ℝ) *
        ((timeRange.stop - timeRange.start) /
          decayNumPoints drug timeRange) ≤
      decayNumPoints drug timeRange *
        ((timeRange.stop - timeRange.start) /
          decayNumPoints drug timeRange) :=
    mul_le_mul_of_nonneg_right hiN hstep
  have hcancel : decayNumPoints drug timeRange *
      ((timeRange.stop - timeRange.start) /
        decayNumPoints drug timeRange) =
      timeRange.stop - timeRange.start := by
    field_simp
  linarith

theorem mem_foldl_doseSampleStep_bounds (drug : Drug) (timeRange : TimeRange)
    (hH : 0 < drug.halfLife) (hwin : timeRange.start ≤ timeRange.stop) :
    ∀ (l : List DoseEntry) (s : Finset ℝ),
      (∀ x ∈ s, timeRange.start ≤ x ∧ x ≤ timeRange.stop) →
      ∀ x ∈ l.foldl (doseSampleStep drug timeRange) s,
        timeRange.start ≤ x ∧ x ≤ timeRange.stop
  | [], _, hs => hs
  | dose :: l, s, hs => by
    rw [List.foldl_cons]
    refine mem_foldl_doseSampleStep_bounds drug timeRange hH hwin l _ ?_
    intro x hx
    rw [doseSampleStep] at hx
    split_ifs at hx with hin
    · have hguard : (0 : ℝ) ≤ drug.halfLife * 60 * 60 * 1000 * 0.1 := by
        positivity
      rcases Finset.mem_insert.1 hx with rfl | hx
      · exact ⟨le_min hwin (by linarith [hin.1]), min_le_left _ _⟩
      rcases Finset.mem_insert.1 hx with rfl | hx
      · exact ⟨le_max_left _ _, max_le hwin (by linarith [hin.2])⟩
      rcases Finset.mem_insert.1 hx with rfl | hx
      · exact hin
      · exact hs x hx
    · exact hs x hx

/-- C6 (amended): for a drug with positive half-life and a window whose
start is at or before its stop, the sampler output instants form a
strictly ascending (hence duplicate-free) sequence all lying within the
window, and an empty dose list yields the empty output.  The original
claim quantified over every input; a window with start after stop makes
the containment fail (see the counterexample), so the window-order
precondition of the data model is required. -/
theorem c6_sampler_output_invariants (drug : Drug) (doses : List DoseEntry)
    (timeRange : TimeRange) (hH : 0 < drug.halfLife)
    (hwin : timeRange.start ≤ timeRange.stop) :
    ((calculateDecayPoints drug doses timeRange).map Prod.fst).Sorted
        (· < ·) ∧
      (∀ x ∈ (calculateDecayPoints drug doses timeRange).map Prod.fst,
        timeRange.start ≤ x ∧ x ≤ timeRange.stop) ∧
      (doses = [] → calculateDecayPoints drug doses timeRange = []) := by
  by_cases hlen : doses.length = 0
  · have hempty : calculateDecayPoints drug doses timeRange = [] := by
      rw [calculateDecayPoints, if_pos hlen]
    rw [hempty]
    exact ⟨List.sorted_nil, by simp, fun _ => rfl⟩
  · rw [decayPoints_map_fst drug doses timeRange hlen]
    refine ⟨Finset.sort_sorted_lt _, ?_, ?_⟩
    · intro x hx
      rw [Finset.mem_sort] at hx
      rcases Finset.mem_union.1 hx with h | h
      · exact mem_foldl_doseSampleStep_bounds drug timeRange hH hwin doses ∅
          (fun y hy => absurd hy (Finset.not_mem_empty y)) x h
      · exact mem_regularSampleTimes_bounds drug timeRange hwin x h
    · intro h
      exact absurd (by rw [h, List.length_nil]) hlen

theorem c6_sampler_output_invariants_witness :
    ((calculateDecayPoints
          { id := "1", name := "Test", halfLife := 24, color := "#000" }
          [{ id := "1", drugId := "1", initialDose := 100,
             administrationTime := 0 }]
          { start := 0, stop := 86400000 }).map Prod.fst).Sorted (· < ·) ∧
      (∀ x ∈ (calculateDecayPoints
          { id := "1", name := "Test", halfLife := 24, color := "#000" }
          [{ id := "1", drugId := "1", initialDose := 100,
             administrationTime := 0 }]
          { start := 0, stop := 86400000 }).map Prod.fst,
        (0 : ℝ) ≤ x ∧ x ≤ 86400000) ∧
      ([({ id := "1", drugId := "1", initialDose := 100,
           administrationTime := 0 } : DoseEntry)] = [] →
        calculateDecayPoints
          { id := "1", name := "Test", halfLife := 24, color := "#000" }
          [{ id := "1", drugId := "1", initialDose := 100,
             administrationTime := 0 }]
          { start := 0, stop := 86400000 } = []) :=
  c6_sampler_output_invariants
    { id := "1", name := "Test", halfLife := 24, color := "#000" }
    [{ id := "1", drugId := "1", initialDose := 100,
       administrationTime := 0 }]
    { start := 0, stop := 86400000 } (by norm_num) (by norm_num)

/-- C6 counterexample: with the window reversed (start 1, stop 0) the
sampler still emits the instant 1 (the first regular sample), which does
not lie within the interval from 1 to 0 — so the claim as stated, over
every input, is false. -/
theorem c6_window_reversed_counterexample :
    (1 : ℝ) ∈
        (calculateDecayPoints
            { id := "1", name := "Test", halfLife := 1, color := "#000" }
            [{ id := "1", drugId := "1", initialDose := 100,
               administrationTime := 5 }]
            { start := 1, stop := 0 }).map Prod.fst ∧
      (1 : ℝ) ∉ Set.Icc (1 : ℝ) (0 : ℝ) := by
  constructor
  · rw [decayPoints_map_fst _ _ _ (by simp), Finset.mem_sort]
    refine Finset.mem_union_right _ ?_
    rw [regularSampleTimes, Finset.mem_image]
    exact ⟨0, Finset.mem_range.2 (Nat.succ_pos _), by norm_num⟩
  · rw [Set.mem_Icc]
    norm_num

theorem card_doseSampleStep_le (drug : Drug) (timeRange : TimeRange)
    (s : Finset ℝ) (dose : DoseEntry) :
    (doseSampleStep drug timeRange s dose).card ≤ s.card + 3 := by
  rw [doseSampleStep]
  split
  · refine le_trans (Finset.card_insert_le _ _) ?_
    refine le_trans (Nat.add_le_add_right (Finset.card_insert_le _ _) 1) ?_
    refine le_trans
      (Nat.add_le_add_right
        (Nat.add_le_add_right (Finset.card_insert_le _ _) 1) 1) ?_
    omega
  · omega

theorem card_foldl_doseSampleStep_le (drug : Drug) (timeRange : TimeRange) :
    ∀ (l : List DoseEntry) (s : Finset ℝ),
      (l.foldl (doseSampleStep drug timeRange) s).card ≤
        s.card + 3 * l.length
  | [], s => by simp
  | dose :: l, s => by
    rw [List.foldl_cons]
    refine le_trans (card_foldl_doseSampleStep_le drug timeRange l _) ?_
    have h := card_doseSampleStep_le drug timeRange s dose
    rw [List.length_cons]
    omega

theorem card_regularSampleTimes_le (drug : Drug) (timeRange : TimeRange) :
    (regularSampleTimes drug timeRange).card ≤ 2001 := by
  rw [regularSampleTimes]
  refine le_trans Finset.card_image_le ?_
  rw [Finset.card_range]
  have hfloor : ⌊decayNumPoints drug timeRange⌋₊ ≤ 2000 := by
    refine le_trans (Nat.floor_le_floor (decayNumPoints_le drug timeRange)) ?_
    rw [show (2000 : ℝ) = ((2000 : ℕ) : ℝ) by norm_num, Nat.floor_natCast]
  omega

theorem calculateDecayPoints_length_le (drug : Drug)
    (doses : List DoseEntry) (timeRange : TimeRange) :
    (calculateDecayPoints drug doses timeRange).length ≤
      2001 + 3 * doses.length := by
  rw [calculateDecayPoints]
  split
  · simp
  · rw [List.length_map, Finset.length_sort, sampleTimes]
    refine le_trans (Finset.card_union_le _ _) ?_
    have h1 := card_foldl_doseSampleStep_le drug timeRange doses
      (∅ : Finset ℝ)
    rw [Finset.card_empty] at h1
    have h2 := card_regularSampleTimes_le drug timeRange
    rw [doseSampleTimes]
    omega

/-- C7 (amended): the sampler derives its regular sample count as the
maximum of the floor count 200 and window duration over half-life times
density 10, clamped to the ceiling 2000; whenever the unclamped candidate
is below the ceiling the samples-per-half-life ratio is at least 10; and
the total number of emitted sample points is bounded by the ceiling plus
one (the regular loop runs from 0 through the count inclusively) plus
three forced guard points per dose.  The original claim that the output
never exceeds the ceiling itself is false at the cap (see the
counterexample): the loop emits ceiling-plus-one regular points. -/
theorem c7_sample_count_policy (drug : Drug) (doses : List DoseEntry)
    (timeRange : TimeRange) (hH : 0 < drug.halfLife)
    (hD : 0 < timeRange.stop - timeRange.start) :
    decayNumPoints drug timeRange =
        min 2000
          (max 200
            ((timeRange.stop - timeRange.start) /
                (drug.halfLife * 60 * 60 * 1000) * 10)) ∧
      (max 200
            ((timeRange.stop - timeRange.start) /
                (drug.halfLife * 60 * 60 * 1000) * 10) < 2000 →
        10 ≤ decayNumPoints drug timeRange /
            ((timeRange.stop - timeRange.start) /
              (drug.halfLife * 60 * 60 * 1000))) ∧
      (calculateDecayPoints drug doses timeRange).length ≤
        2001 + 3 * doses.length := by
  have habsorb :
      max
          (max 200
            ((timeRange.stop - timeRange.start) /
                (drug.halfLife * 60 * 60 * 1000) * 10))
          100 =
        max 200
          ((timeRange.stop - timeRange.start) /
              (drug.halfLife * 60 * 60 * 1000) * 10) :=
    max_eq_left (le_trans (by norm_num) (le_max_left _ _))
  refine ⟨by rw [decayNumPoints, habsorb], ?_,
    calculateDecayPoints_length_le drug doses timeRange⟩
  intro hclamp
  have hratio : 0 < (timeRange.stop - timeRange.start) /
      (drug.halfLife * 60 * 60 * 1000) := by positivity
  rw [le_div_iff₀ hratio, decayNumPoints, habsorb,
    min_eq_right hclamp.le]
  calc 10 * ((timeRange.stop - timeRange.start) /
        (drug.halfLife * 60 * 60 * 1000)) =
      (timeRange.stop - timeRange.start) /
          (drug.halfLife * 60 * 60 * 1000) * 10 := by ring
    _ ≤ max 200
          ((timeRange.stop - timeRange.start) /
              (drug.halfLife * 60 * 60 * 1000) * 10) := le_max_right _ _

theorem c7_sample_count_policy_witness :
    decayNumPoints
        { id := "1", name := "Test", halfLife := 24, color := "#000" }
        { start := 0, stop := 86400000 } =
      min 2000
        (max 200 (((86400000 : ℝ) - 0) / (24 * 60 * 60 * 1000) * 10)) ∧
      (max 200 (((86400000 : ℝ) - 0) / (24 * 60 * 60 * 1000) * 10) < 2000 →
        10 ≤ decayNumPoints
            { id := "1", name := "Test", halfLife := 24, color := "#000" }
            { start := 0, stop := 86400000 } /
          (((86400000 : ℝ) - 0) / (24 * 60 * 60 * 1000))) ∧
      (calculateDecayPoints
          { id := "1", name := "Test", halfLife := 24, color := "#000" }
          [{ id := "1", drugId := "1", initialDose := 100,
             administrationTime := 0 }]
          { start := 0, stop := 86400000 }).length ≤
        2001 + 3 *
          [({ id := "1", drugId := "1", initialDose := 100,
              administrationTime := 0 } : DoseEntry)].length :=
  c7_sample_count_policy
    { id := "1", name := "Test", halfLife := 24, color := "#000" }
    [{ id := "1", drugId := "1", initialDose := 100,
       administrationTime := 0 }]
    { start := 0, stop := 86400000 } (by norm_num) (by norm_num)

/-- C7 counterexample: with half-life 1 hour and a 200 hour window the
candidate count hits the cap 2000 exactly, and the sampler emits 2001
sample points (the regular loop runs from index 0 through 2000
inclusive), exceeding the stated ceiling of 2000. -/
theorem c7_ceiling_exceeded_counterexample :
    2000 <
      (calculateDecayPoints
          { id := "1", name := "Test", halfLife := 1, color := "#000" }
          [{ id := "1", drugId := "1", initialDose := 100,
             administrationTime := 0 }]
          { start := 0, stop := 720000000 }).length := by
  have hN : decayNumPoints
      { id := "1", name := "Test", halfLife := 1, color := "#000" }
      { start := 0, stop := 720000000 } = 2000 := by
    rw [decayNumPoints]
    norm_num [max_def, min_def]
  have hfloor : ⌊decayNumPoints
      { id := "1", name := "Test", halfLife := 1, color := "#000" }
      { start := 0, stop := 720000000 }⌋₊ = 2000 := by
    rw [hN, show (2000 : ℝ) = ((2000 : ℕ) : ℝ) by norm_num,
      Nat.floor_natCast]
  have hinj : Function.Injective fun i : ℕ =>
      ({ start := 0, stop := 720000000 } : TimeRange).start +
        (i : ℝ) *
          ((({ start := 0, stop := 720000000 } : TimeRange).stop -
              ({ start := 0, stop := 720000000 } : TimeRange).start) /
            decayNumPoints
              { id := "1", name := "Test", halfLife := 1, color := "#000" }
              { start := 0, stop := 720000000 }) := by
    intro a b hab
    simp only [hN] at hab
    norm_num at hab
    exact_mod_cast hab
  have hmem : ∀ x : ℝ, (∃ i : ℕ, i ≤ 2000 ∧
        ({ start := 0, stop := 720000000 } : TimeRange).start +
          (i : ℝ) *
            ((({ start := 0, stop := 720000000 } : TimeRange).stop -
                ({ start := 0, stop := 720000000 } : TimeRange).start) /
              decayNumPoints
                { id := "1", name := "Test", halfLife := 1, color := "#000" }
                { start := 0, stop := 720000000 }) = x) →
      x ∈ regularSampleTimes
        { id := "1", name := "Test", halfLife := 1, color := "#000" }
        { start := 0, stop := 720000000 } := by
    intro x hx
    obtain ⟨i, hi, hval⟩ := hx
    rw [regularSampleTimes, hfloor, Finset.mem_image]
    exact ⟨i, Finset.mem_range.2 (by omega), hval⟩
  have hsub : doseSampleTimes
        { id := "1", name := "Test", halfLife := 1, color := "#000" }
        [{ id := "1", drugId := "1", initialDose := 100,
           administrationTime := 0 }]
        { start := 0, stop := 720000000 } ⊆
      regularSampleTimes
        { id := "1", name := "Test", halfLife := 1, color := "#000" }
        { start := 0, stop := 720000000 } := by
    intro x hx
    rw [doseSampleTimes, List.foldl_cons, List.foldl_nil,
      doseSampleStep, if_pos (⟨by norm_num, by norm_num⟩ :
        ((0 : ℝ) ≤ 0 ∧ (0 : ℝ) ≤ 720000000))] at hx
    rcases Finset.mem_insert.1 hx with rfl | hx
    · exact hmem _ ⟨1, by omega, by rw [hN]; norm_num [min_def]⟩
    rcases Finset.mem_insert.1 hx with rfl | hx
    · exact hmem _ ⟨0, by omega, by rw [hN]; norm_num [max_def]⟩
    rcases Finset.mem_insert.1 hx with rfl | hx
    · exact hmem _ ⟨0, by omega, by rw [hN]; norm_num⟩
    · exact absurd hx (Finset.not_mem_empty x)
  have hcard : (regularSampleTimes
        { id := "1", name := "Test", halfLife := 1, color := "#000" }
        { start := 0, stop := 720000000 }).card = 2001 := by
    rw [regularSampleTimes, hfloor, Finset.card_image_of_injective _ hinj,
      Finset.card_range]
  rw [calculateDecayPoints, if_neg (by simp), List.length_map,
    Finset.length_sort, sampleTimes, Finset.union_eq_right.2 hsub, hcard]
  norm_num

/-- C8: the Curve Builder grouping emits an entry only for drugs from the
input list that have at least one associated dose (the entry carrying
exactly the dose entries whose drugId matches), and a dose entry whose
drugId matches no drug in the list appears in no emitted entry — it is
silently dropped rather than misattributed. -/
theorem c8_curve_builder_grouping (drugs : List Drug)
    (doseEntries : List DoseEntry) :
    (∀ p ∈ plottedDrugs drugs doseEntries,
        p.drug ∈ drugs ∧ p.doses ≠ [] ∧
          p.doses =
            doseEntries.filter fun dose => dose.drugId = p.drug.id) ∧
      ∀ e ∈ doseEntries, (∀ drug ∈ drugs, drug.id ≠ e.drugId) →
        ∀ p ∈ plottedDrugs drugs doseEntries, e ∉ p.doses := by
  have hmain : ∀ p ∈ plottedDrugs drugs doseEntries,
      p.drug ∈ drugs ∧ p.doses ≠ [] ∧
        p.doses = doseEntries.filter fun dose => dose.drugId = p.drug.id := by
    intro p hp
    rw [plottedDrugs, List.mem_filter] at hp
    obtain ⟨hmem, hlen⟩ := hp
    rw [List.mem_map] at hmem
    obtain ⟨drug, hdrug, hfp⟩ := hmem
    subst hfp
    simp only [decide_eq_true_eq] at hlen
    exact ⟨hdrug, List.length_pos.1 hlen, rfl⟩
  refine ⟨hmain, ?_⟩
  intro e _ hnone p hp hmem
  obtain ⟨hdrug, _, hdoses⟩ := hmain p hp
  rw [hdoses, List.mem_filter] at hmem
  have hid : e.drugId = p.drug.id := by
    simpa using hmem.2
  exact hnone p.drug hdrug hid.symm

theorem c8_curve_builder_grouping_witness :
    ({ drug := { id := "1", name := "Test", halfLife := 24,
                 color := "#000" },
       doses := [{ id := "d1", drugId := "1", initialDose := 100,
                   administrationTime := 0 }] } : PlottedDrug).drug ∈
        [({ id := "1", name := "Test", halfLife := 24,
            color := "#000" } : Drug)] ∧
      ({ drug := { id := "1", name := "Test", halfLife := 24,
                   color := "#000" },
         doses := [{ id := "d1", drugId := "1", initialDose := 100,
                     administrationTime := 0 }] } : PlottedDrug).doses ≠
        [] ∧
      ({ drug := { id := "1", name := "Test", halfLife := 24,
                   color := "#000" },
         doses := [{ id := "d1", drugId := "1", initialDose := 100,
                     administrationTime := 0 }] } : PlottedDrug).doses =
        [({ id := "d1", drugId := "1", initialDose := 100,
            administrationTime := 0 } : DoseEntry)].filter
          fun dose =>
            dose.drugId =
              ({ drug := { id := "1", name := "Test", halfLife := 24,
                           color := "#000" },
                 doses := [{ id := "d1", drugId := "1",
                             initialDose := 100,
                             administrationTime := 0 }] } :
                PlottedDrug).drug.id :=
  (c8_curve_builder_grouping
      [{ id := "1", name := "Test", halfLife := 24, color := "#000" }]
      [{ id := "d1", drugId := "1", initialDose := 100,
         administrationTime := 0 }]).1
    { drug := { id := "1", name := "Test", halfLife := 24,
                color := "#000" },
      doses := [{ id := "d1", drugId := "1", initialDose := 100,
                  administrationTime := 0 }] }
    (List.mem_singleton.2 rfl)

end DoseTracker
